import Mathlib

/-!
Shallow embedding of the Amazon Strategy Assistant repository
(`src/utils/ai_agent.py` and `src/app.py`).

External effects (the two LLM calls and the search-API call) are modelled by
an environment record `AgentEnv` whose fields give the outcome of each call;
exceptions raised by Python code are modelled with `Except PyExc`.
Python dictionaries read by the program are modelled as structures whose
fields are `Option`-valued (a `none` field is an absent key), and bracket
access on an absent key is a `KeyError`.
-/

/-- Model of a Python exception value. -/
inductive PyExc where
  | generic (msg : String)
  | keyError (key : String)
deriving DecidableEq, Repr

/-- Python `str(e)`: for a `KeyError` Python prints the quoted key. -/
def str_of_exc : PyExc → String
  | .generic msg => msg
  | .keyError key => "'" ++ key ++ "'"

/-- One raw item of the `organic_results` list of a serpapi response; each
field models `result.get(...)` access, absent keys are `none`. -/
structure RawSearchItem where
  title : Option String
  snippet : Option String
  link : Option String
  displayed_link : Option String
  source : Option String
deriving DecidableEq, Repr

/-- Model of the dictionary returned by `GoogleSearch(params).get_dict()`:
only the `organic_results` key is read (`none` models its absence). -/
structure SerpResponse where
  organic_results : Option (List RawSearchItem)
deriving DecidableEq, Repr

/-- A normalized search result, as built by `search_amazon_data`
(all four keys are always present). -/
structure SearchResult where
  title : String
  snippet : String
  link : String
  source : String
deriving DecidableEq, Repr

/-- The classifier's parsed JSON dictionary, restricted to the keys the
program reads; a `none` field models an absent key. -/
structure AnalysisDict where
  category : Option String
  search_terms : Option (List String)
  focus_areas : Option (List String)
  analysis_type : Option String
  key_questions : Option (List String)
deriving DecidableEq, Repr

/-- Outcome of `json.loads` on the classifier response body:
`failure` covers a body that is not valid JSON, and also a JSON body that is
not a dictionary (then the subsequent `.get` raises), both caught by the
bare `except:`; `dict d` is a successfully parsed JSON dictionary. -/
inductive ParseOutcome where
  | failure
  | dict (d : AnalysisDict)
deriving DecidableEq, Repr

/-- One report template: a title and four section names
(every entry of `report_templates` has exactly 4 sections). -/
structure ReportTemplate where
  title : String
  sections : List String
deriving DecidableEq, Repr

/-- The static `self.report_templates` table of `AmazonStrategyAgent`. -/
def report_templates : List (String × ReportTemplate) :=
  [("competition",
    { title := "🏆 Competitive Analysis Report",
      sections := ["Market Position", "Competitor Strengths/Weaknesses",
                   "Competitive Gaps", "Strategic Recommendations"] }),
   ("advertising",
    { title := "📢 Amazon Advertising Strategy Report",
      sections := ["Current Ad Landscape", "Opportunity Analysis",
                   "Budget Allocation", "Campaign Recommendations"] }),
   ("trends",
    { title := "📈 Market Trends Analysis",
      sections := ["Emerging Trends", "Consumer Behavior",
                   "Market Opportunities", "Strategic Positioning"] }),
   ("pricing",
    { title := "💰 Pricing Strategy Report",
      sections := ["Price Analysis", "Competitive Pricing",
                   "Value Positioning", "Pricing Recommendations"] }),
   ("reviews",
    { title := "⭐ Customer Sentiment Analysis",
      sections := ["Review Analysis", "Customer Pain Points",
                   "Satisfaction Drivers", "Improvement Areas"] }),
   ("general",
    { title := "📊 Amazon Strategy Analysis",
      sections := ["Market Overview", "Key Insights",
                   "Strategic Opportunities", "Action Plan"] })]

/-- The `self.report_templates["general"]` entry, used as the `.get` default
in `generate_enhanced_report`. -/
def general_template : ReportTemplate :=
  { title := "📊 Amazon Strategy Analysis",
    sections := ["Market Overview", "Key Insights",
                 "Strategic Opportunities", "Action Plan"] }

/-- The environment an `AmazonStrategyAgent` run interacts with:
`classifier` is the outcome of the classification LLM call (an exception, or
a response body abstracted by its parse outcome); `search` maps the built
query string of a serpapi call to its outcome; `synth` maps the synthesis
prompt to the outcome of the second LLM call; `today` is the formatted
`datetime.datetime.now()` date. -/
structure AgentEnv where
  classifier : Except PyExc ParseOutcome
  search : String → Except PyExc SerpResponse
  synth : String → Except PyExc String
  today : String

/-- The `search_queries` dictionary of `search_amazon_data`. -/
def search_queries (query : String) : List (String × String) :=
  [("general", "Amazon " ++ query ++ " 2024"),
   ("competition", "Amazon top sellers " ++ query ++ " competitors"),
   ("trends", "Amazon marketplace trends " ++ query ++ " 2024"),
   ("advertising", "Amazon PPC advertising strategy " ++ query),
   ("reviews", "Amazon customer reviews " ++ query ++ " analysis"),
   ("pricing", "Amazon pricing strategy " ++ query ++ " market")]

/-- `search_queries.get(search_type, f"Amazon {query}")`. -/
def build_search_query (query search_type : String) : String :=
  ((search_queries query).lookup search_type).getD ("Amazon " ++ query)

/-- Normalization of one organic result inside `search_amazon_data`:
`title`, `snippet`, `link` default to `""`; `source` is
`result.get("displayed_link", result.get("source", ""))`. -/
def normalize_result (r : RawSearchItem) : SearchResult :=
  { title := r.title.getD "",
    snippet := r.snippet.getD "",
    link := r.link.getD "",
    source := r.displayed_link.getD (r.source.getD "") }

/-- `AmazonStrategyAgent.search_amazon_data`: builds the category-specific
query, performs the serpapi call, keeps the first 6 organic results (none if
the key is absent), and swallows any exception into an empty list. -/
def search_amazon_data (env : AgentEnv) (query : String)
    (search_type : String) : List SearchResult :=
  let search_query := build_search_query query search_type
  match env.search search_query with
  | .error _ => []
  | .ok results =>
      match results.organic_results with
      | none => []
      | some items => (items.take 6).map normalize_result

/-- The fixed list `valid_categories` of `analyze_strategy_question`. -/
def valid_categories : List String :=
  ["competition", "advertising", "trends", "pricing", "reviews", "general"]

/-- The fallback dictionary returned by `analyze_strategy_question` when the
response body cannot be parsed. -/
def fallback_analysis (question : String) : AnalysisDict :=
  { category := some "general",
    search_terms := some [question],
    focus_areas := some ["market analysis", "opportunities", "strategy"],
    analysis_type := some "General Amazon strategy analysis",
    key_questions := some [question] }

/-- `AmazonStrategyAgent.analyze_strategy_question`: the LLM call is outside
the `try`, so its exception propagates; a parse failure yields the fallback
dictionary; a parsed dictionary whose `category` is absent or outside
`valid_categories` has its `category` overwritten with `"general"` and is
otherwise returned unchanged. -/
def analyze_strategy_question (question : String)
    (llm_response : Except PyExc ParseOutcome) : Except PyExc AnalysisDict :=
  match llm_response with
  | .error e => .error e
  | .ok .failure => .ok (fallback_analysis question)
  | .ok (.dict analysis) =>
      match analysis.category with
      | some c =>
          if c ∈ valid_categories then .ok analysis
          else .ok { analysis with category := some "general" }
      | none => .ok { analysis with category := some "general" }

/-- One `search_summary +=` block of `generate_enhanced_report` for source
number `i`. -/
def source_block (i : Nat) (r : SearchResult) : String :=
  "\n**Source " ++ Nat.repr i ++ ":** " ++ r.title ++ "\n" ++ r.snippet ++
  "\n*From: " ++ r.source ++ "*\n"

/-- The `for i, result in enumerate(search_results[:4], 1)` loop body,
starting at index `i`: results with an empty snippet still consume an index
but add nothing. -/
def search_summary_from (i : Nat) : List SearchResult → String
  | [] => ""
  | r :: rs =>
      (if r.snippet ≠ "" then source_block i r else "") ++
      search_summary_from (i + 1) rs

/-- The `search_summary` string of `generate_enhanced_report`: only the
first 4 search results are considered. -/
def search_summary (search_results : List SearchResult) : String :=
  search_summary_from 1 (search_results.take 4)

/-- Python `str.upper()` for the ASCII section names: uppercases each
character. -/
def py_upper (s : String) : String := String.mk (s.data.map Char.toUpper)

def rp_s1 : String :=
  "\n        You are a senior Amazon strategy consultant. Create a comprehensive, professional strategy report.\n        \n        REPORT TYPE: "

def rp_s2 : String := "\n        DATE: "

def rp_s3 : String := "\n        CLIENT QUESTION: "

def rp_s4 : String := "\n        \n        ANALYSIS FRAMEWORK: "

def rp_s5 : String := "\n        KEY FOCUS AREAS: "

def rp_s6 : String := "\n        \n        MARKET RESEARCH DATA:\n        "

def rp_s7 : String :=
  "\n        \n        Create a detailed report with these sections:\n        \n        # "

def rp_s8 : String := "\n        *Generated on "

def rp_s9 : String :=
  "*\n        \n        ## 🎯 EXECUTIVE SUMMARY\n        • [Key insight 1 - most important finding]\n        • [Key insight 2 - critical opportunity or challenge]  \n        • [Key insight 3 - strategic implication]\n        \n        ## 🔍 "

def rp_s10 : String :=
  "\n        [Detailed analysis of first focus area with specific data points]\n        \n        ## 📊 "

def rp_s11 : String :=
  "\n        [Second major section with actionable insights]\n        \n        ## 💡 "

def rp_s12 : String :=
  "\n        [Third section focusing on opportunities and strategies]\n        \n        ## 🚀 "

def rp_s13 : String :=
  "\n        1. **Immediate Actions (Next 30 days)**\n           - [Specific action item]\n           - [Specific action item]\n        \n        2. **Strategic Initiatives (Next 90 days)**\n           - [Strategic initiative]\n           - [Strategic initiative]\n        \n        3. **Long-term Strategy (6+ months)**\n           - [Long-term strategic direction]\n           - [Long-term strategic direction]\n        \n        ## 📈 KEY METRICS TO TRACK\n        • [Specific metric 1]\n        • [Specific metric 2]\n        • [Specific metric 3]\n        \n        ## ⚠️ POTENTIAL RISKS & MITIGATION\n        • **Risk:** [Potential challenge] | **Mitigation:** [How to address]\n        • **Risk:** [Potential challenge] | **Mitigation:** [How to address]\n        \n        Use specific data from the research. Be actionable and strategic. Focus on Amazon marketplace dynamics.\n        "

/-- The `prompt` f-string of `generate_enhanced_report`, for a given
template: the concatenation of its literal segments `rp_s1 .. rp_s13` and
the interpolated values, in source order. -/
def report_prompt (question : String) (search_results : List SearchResult)
    (analysis : AnalysisDict) (template : ReportTemplate)
    (current_date : String) : String :=
  String.join
    [rp_s1, template.title,
     rp_s2, current_date,
     rp_s3, question,
     rp_s4, analysis.analysis_type.getD "Strategic analysis",
     rp_s5, String.intercalate ", " (analysis.focus_areas.getD []),
     rp_s6, search_summary search_results,
     rp_s7, template.title,
     rp_s8, current_date,
     rp_s9, py_upper (template.sections.getD 0 ""),
     rp_s10, py_upper (template.sections.getD 1 ""),
     rp_s11, py_upper (template.sections.getD 2 ""),
     rp_s12, py_upper (template.sections.getD 3 ""),
     rp_s13]

/-- The prompt built by `generate_enhanced_report` for a template key:
`self.report_templates.get(template_type, self.report_templates["general"])`.
-/
def build_report_prompt (question : String) (search_results : List SearchResult)
    (analysis : AnalysisDict) (template_type : String)
    (current_date : String) : String :=
  report_prompt question search_results analysis
    ((report_templates.lookup template_type).getD general_template)
    current_date

/-- `AmazonStrategyAgent.generate_enhanced_report`: builds the prompt and
sends it to the LLM, returning the raw response (or its exception). -/
def generate_enhanced_report (env : AgentEnv) (question : String)
    (search_results : List SearchResult) (analysis : AnalysisDict)
    (template_type : String) : Except PyExc String :=
  env.synth (build_report_prompt question search_results analysis
    template_type env.today)

/-- The `search_counts` dictionary of `research_and_analyze`. -/
def search_counts : List (String × Nat) :=
  [("Quick Analysis", 2), ("Deep Dive", 3), ("Comprehensive Report", 4)]

/-- The dictionary returned by `research_and_analyze` on success. -/
structure ResearchResult where
  question : String
  analysis : AnalysisDict
  search_results : List SearchResult
  report : String
  sources : List String
  report_type : String
  template_used : String
deriving DecidableEq, Repr

/-- An instrumented run of `research_and_analyze`: the returned value (or
the propagated exception), together with two observations of the run — the
`(query, search_type)` arguments of the `search_amazon_data` calls issued,
in order, and the aggregated `all_search_results` list handed to
`generate_enhanced_report` (empty when the run fails before aggregating). -/
structure DriverRun where
  result : Except PyExc ResearchResult
  searchCalls : List (String × String)
  aggregated : List SearchResult
deriving Repr

/-- Step 3 of `research_and_analyze` together with its return value: one
synthesis call on the aggregated results, then the returned dictionary
(whose `template_used` entry is the strict lookup
`self.report_templates[analysis["category"]]["title"]`). -/
def finalize_result (env : AgentEnv) (question : String)
    (analysis : AnalysisDict) (category : String)
    (all_search_results : List SearchResult) : Except PyExc ResearchResult :=
  match generate_enhanced_report env question all_search_results analysis
      category with
  | .error e => .error e
  | .ok report =>
      match report_templates.lookup category with
      | none => .error (.keyError category)
      | some tmpl =>
          .ok { question := question,
                analysis := analysis,
                search_results := all_search_results,
                report := report,
                sources := (all_search_results.filter
                  (fun r => r.link ≠ "")).map (fun r => r.link),
                report_type := category,
                template_used := tmpl.title }

/-- `AmazonStrategyAgent.research_and_analyze`: classify, then 1 to 3 search
calls gated by the depth label and the number of search terms (contributing
slices of at most 3, 2 and 2 results), then one synthesis call; dictionary
accesses `analysis["search_terms"]` and `analysis["category"]` raise
`KeyError` if absent, and `self.report_templates[category]` likewise. -/
def research_and_analyze (env : AgentEnv) (question : String)
    (research_depth : String) : DriverRun :=
  match analyze_strategy_question question env.classifier with
  | .error e => ⟨.error e, [], []⟩
  | .ok analysis =>
    let num_searches := (search_counts.lookup research_depth).getD 3
    match analysis.search_terms with
    | none => ⟨.error (.keyError "search_terms"), [], []⟩
    | some terms =>
      match analysis.category with
      | none => ⟨.error (.keyError "category"), [], []⟩
      | some category =>
        let primary_term := match terms with
          | [] => question
          | t :: _ => t
        let primary_results := search_amazon_data env primary_term category
        let seg1 := primary_results.take 3
        let second? := 3 ≤ num_searches ∧ 1 < terms.length
        let seg2 := if second? then
            (search_amazon_data env (terms.getD 1 "") "general").take 2
          else []
        let calls2 : List (String × String) :=
          if second? then [(terms.getD 1 "", "general")] else []
        let third? := 4 ≤ num_searches ∧ 2 < terms.length
        let seg3 := if third? then
            (search_amazon_data env (terms.getD 2 "") category).take 2
          else []
        let calls3 : List (String × String) :=
          if third? then [(terms.getD 2 "", category)] else []
        let all_search_results := seg1 ++ seg2 ++ seg3
        let calls := (primary_term, category) :: (calls2 ++ calls3)
        ⟨finalize_result env question analysis category all_search_results,
         calls, all_search_results⟩

/-- What the presentation layer (`src/app.py`) shows for one generate-report
run: the `try` body displays the report and its sources on success; the
`except` branch shows only the error banner (no report, no sources). -/
inductive UIView where
  | report (body : String) (sources : List String)
  | errorBanner (msg : String)
deriving DecidableEq, Repr

/-- The error banner text of `src/app.py`. -/
def error_banner (e : PyExc) : String :=
  "❌ **Error generating report:** " ++ str_of_exc e

/-- Rendering of a `research_and_analyze` outcome by `src/app.py`. -/
def render_result (outcome : Except PyExc ResearchResult) : UIView :=
  match outcome with
  | .ok results => .report results.report results.sources
  | .error e => .errorBanner (error_banner e)

/-- The download file name of `src/app.py`:
`f"amazon_strategy_report_{question[:30].replace(' ', '_')}.md"` (Python
slices strings by code points and `replace` replaces every occurrence). -/
def download_file_name (question : String) : String :=
  "amazon_strategy_report_" ++
  String.mk ((question.data.take 30).map
    (fun c => if c = ' ' then '_' else c)) ++ ".md"

/-!
Substring machinery used to state the verbatim-containment claims about the
synthesis prompt, and concrete fixtures used by witnesses and
counterexamples.
-/

/-- Checks that `p` is a leading segment of `l`. -/
def matches_at : List Char → List Char → Bool
  | [], _ => true
  | _ :: _, [] => false
  | a :: p, b :: l => a == b && matches_at p l

/-- Checks that `p` occurs contiguously somewhere inside `l`. -/
def has_sub (p : List Char) : List Char → Bool
  | [] => matches_at p []
  | b :: t => matches_at p (b :: t) || has_sub p t

/-- The string `s` has `pat` as a contiguous substring. -/
def strContains (s pat : String) : Prop :=
  has_sub pat.data s.data = true

/-- Fixture: a raw search item whose normalization has a non-empty link. -/
def w_rawitem : RawSearchItem :=
  { title := some "T", snippet := some "S", link := some "http://x",
    displayed_link := some "D", source := none }

/-- Fixture: a serpapi response with 6 organic results. -/
def six_response : SerpResponse :=
  { organic_results := some (List.replicate 6 w_rawitem) }

/-- Fixture: a serpapi response with no `organic_results` key. -/
def empty_response : SerpResponse := { organic_results := none }

/-- Fixture: a parsed classifier dictionary with 3 search terms and a valid
category. -/
def c2_dict : AnalysisDict :=
  { category := some "general", search_terms := some ["a", "b", "c"],
    focus_areas := some [], analysis_type := some "t",
    key_questions := some ["k"] }

/-- Fixture: environment whose searches always return 6 organic results. -/
def c2_env : AgentEnv :=
  { classifier := .ok (.dict c2_dict),
    search := fun _ => .ok six_response,
    synth := fun _ => .ok "report",
    today := "January 01, 2024" }

/-- Fixture: a parsed classifier dictionary with an off-taxonomy category
and search terms different from the question. -/
def c1_dict : AnalysisDict :=
  { category := some "strategy", search_terms := some ["widgets"],
    focus_areas := none, analysis_type := none, key_questions := none }

/-- Fixture: a parsed classifier dictionary with 3 search terms and category
`"competition"`. -/
def c4_dict : AnalysisDict :=
  { category := some "competition", search_terms := some ["x", "y", "z"],
    focus_areas := none, analysis_type := none, key_questions := none }

/-- Fixture: environment for counting search calls. -/
def c4_env : AgentEnv :=
  { classifier := .ok (.dict c4_dict),
    search := fun _ => .ok empty_response,
    synth := fun _ => .ok "r",
    today := "d" }

/-- Fixture: environment whose search calls always raise. -/
def c5_env : AgentEnv :=
  { classifier := .ok .failure,
    search := fun _ => .error (.generic "search boom"),
    synth := fun _ => .ok "r",
    today := "d" }

/-- Fixture: environment whose classifier LLM call raises. -/
def c6_env : AgentEnv :=
  { classifier := .error (.generic "boom"),
    search := fun _ => .ok empty_response,
    synth := fun _ => .ok "r",
    today := "d" }

/-- Fixture: a pricing classification with 2 search terms. -/
def c8_dict : AnalysisDict :=
  { category := some "pricing",
    search_terms := some ["eco-friendly products", "pricing trends"],
    focus_areas := some [], analysis_type := some "t",
    key_questions := some ["k"] }

/-- Fixture: environment whose classifier yields `c8_dict`. -/
def c8_env : AgentEnv :=
  { classifier := .ok (.dict c8_dict),
    search := fun _ => .ok empty_response,
    synth := fun _ => .ok "r",
    today := "d" }

/-- Fixture: a parsed classifier dictionary with a valid category but no
`search_terms` key. -/
def c10_dict : AnalysisDict :=
  { category := some "pricing", search_terms := none,
    focus_areas := none, analysis_type := none, key_questions := none }

/-- Fixture: environment whose classifier yields `c10_dict`. -/
def c10_env : AgentEnv :=
  { classifier := .ok (.dict c10_dict),
    search := fun _ => .ok empty_response,
    synth := fun _ => .ok "r",
    today := "d" }

/-- Fixture: a parsed classifier dictionary whose `search_terms` key holds
an empty list. -/
def c10b_dict : AnalysisDict :=
  { category := some "trends", search_terms := some [],
    focus_areas := none, analysis_type := none, key_questions := none }

/-- Fixture: environment whose classifier yields `c10b_dict`. -/
def c10b_env : AgentEnv :=
  { classifier := .ok (.dict c10b_dict),
    search := fun _ => .ok empty_response,
    synth := fun _ => .ok "r",
    today := "d" }

/-- Fixture: a minimal analysis dictionary used to build concrete prompts. -/
def c3_dict : AnalysisDict :=
  { category := some "competition", search_terms := some ["a"],
    focus_areas := some [], analysis_type := some "t",
    key_questions := some ["k"] }

/-!
Helper lemmas.
-/

theorem matches_at_mono (p : List Char) :
    ∀ l r, matches_at p l = true → matches_at p (l ++ r) = true := by
  induction p with
  | nil => intro l r _; simp [matches_at]
  | cons a p ih =>
      intro l r h
      cases l with
      | nil => simp [matches_at] at h
      | cons b l =>
          simp only [matches_at, Bool.and_eq_true] at h ⊢
          exact ⟨h.1, ih l r h.2⟩

theorem matches_at_append (p l : List Char) :
    matches_at p (p ++ l) = true := by
  induction p with
  | nil => simp [matches_at]
  | cons a p ih => simp [matches_at, ih]

theorem matches_at_nil_eq (p : List Char) (h : matches_at p [] = true) :
    p = [] := by
  cases p with
  | nil => rfl
  | cons a p => simp [matches_at] at h

theorem has_sub_nil (l : List Char) : has_sub [] l = true := by
  induction l with
  | nil => simp [has_sub, matches_at]
  | cons b t ih => simp [has_sub, matches_at]

theorem has_sub_of_matches_at (p l : List Char)
    (h : matches_at p l = true) : has_sub p l = true := by
  cases l with
  | nil => simpa [has_sub] using h
  | cons b t => simp [has_sub, h]

theorem has_sub_append_l (p l r : List Char)
    (h : has_sub p l = true) : has_sub p (l ++ r) = true := by
  induction l with
  | nil =>
      simp only [has_sub] at h
      have := matches_at_nil_eq p h
      subst this
      simpa using has_sub_nil r
  | cons b t ih =>
      simp only [has_sub, Bool.or_eq_true] at h
      rcases h with h | h
      · exact has_sub_of_matches_at _ _ (matches_at_mono p (b :: t) r h)
      · simp only [List.cons_append, has_sub, Bool.or_eq_true]
        exact Or.inr (ih h)

theorem has_sub_append_r (p l r : List Char)
    (h : has_sub p r = true) : has_sub p (l ++ r) = true := by
  induction l with
  | nil => simpa using h
  | cons b t ih =>
      simp only [List.cons_append, has_sub, Bool.or_eq_true]
      exact Or.inr ih

theorem strContains_refl (p : String) : strContains p p := by
  unfold strContains
  have := matches_at_append p.data []
  simpa using has_sub_of_matches_at p.data p.data (by simpa using this)

theorem strContains_left (s t p : String) (h : strContains s p) :
    strContains (s ++ t) p := by
  unfold strContains at h ⊢
  rw [String.data_append]
  exact has_sub_append_l _ _ _ h

theorem strContains_right (s t p : String) (h : strContains t p) :
    strContains (s ++ t) p := by
  unfold strContains at h ⊢
  rw [String.data_append]
  exact has_sub_append_r _ _ _ h

theorem strContains_foldl (l : List String) :
    ∀ acc p, (strContains acc p ∨ p ∈ l) →
      strContains (l.foldl (fun r s => r ++ s) acc) p := by
  induction l with
  | nil =>
      intro acc p h
      rcases h with h | h
      · simpa using h
      · simp at h
  | cons a t ih =>
      intro acc p h
      simp only [List.foldl_cons]
      rcases h with h | h
      · exact ih (acc ++ a) p (Or.inl (strContains_left _ _ _ h))
      · rcases List.mem_cons.mp h with rfl | h
        · exact ih (acc ++ p) p (Or.inl (strContains_right _ _ _
            (strContains_refl p)))
        · exact ih (acc ++ a) p (Or.inr h)

theorem strContains_join (l : List String) (p : String) (h : p ∈ l) :
    strContains (String.join l) p := by
  unfold String.join
  exact strContains_foldl l "" p (Or.inr h)

theorem analyze_ok_category (question : String)
    (llm_response : Except PyExc ParseOutcome) (a : AnalysisDict)
    (h : analyze_strategy_question question llm_response = .ok a) :
    ∃ c, a.category = some c ∧ c ∈ valid_categories := by
  rcases llm_response with e | o
  · simp [analyze_strategy_question] at h
  · rcases o with _ | d
    · simp only [analyze_strategy_question, Except.ok.injEq] at h
      subst h
      exact ⟨"general", rfl, by simp [valid_categories]⟩
    · rcases hc : d.category with _ | c
      · simp only [analyze_strategy_question, hc, Except.ok.injEq] at h
        subst h
        exact ⟨"general", rfl, by simp [valid_categories]⟩
      · by_cases hv : c ∈ valid_categories
        · simp only [analyze_strategy_question, hc, if_pos hv,
            Except.ok.injEq] at h
          subst h
          exact ⟨c, hc, hv⟩
        · simp only [analyze_strategy_question, hc, if_neg hv,
            Except.ok.injEq] at h
          subst h
          exact ⟨"general", rfl, by simp [valid_categories]⟩

theorem lookup_of_valid (c : String) (h : c ∈ valid_categories) :
    ∃ t, report_templates.lookup c = some t := by
  simp only [valid_categories, List.mem_cons, List.mem_singleton] at h
  rcases h with rfl | rfl | rfl | rfl | rfl | h
  · exact ⟨_, rfl⟩
  · exact ⟨_, rfl⟩
  · exact ⟨_, rfl⟩
  · exact ⟨_, rfl⟩
  · exact ⟨_, rfl⟩
  · simp at h
    subst h
    exact ⟨_, rfl⟩

theorem report_prompt_parts (question : String) (rs : List SearchResult)
    (a : AnalysisDict) (t : ReportTemplate) (date : String) :
    strContains (report_prompt question rs a t date) t.title ∧
    strContains (report_prompt question rs a t date)
      (py_upper (t.sections.getD 0 "")) ∧
    strContains (report_prompt question rs a t date)
      (py_upper (t.sections.getD 1 "")) ∧
    strContains (report_prompt question rs a t date)
      (py_upper (t.sections.getD 2 "")) ∧
    strContains (report_prompt question rs a t date)
      (py_upper (t.sections.getD 3 "")) := by
  unfold report_prompt
  refine ⟨?_, ?_, ?_, ?_, ?_⟩ <;> exact strContains_join _ _ (by simp)

/-- C3 (counterexample): for the category tag `"competition"` of the
template table, the prompt built by `generate_enhanced_report` does not
contain the section name `"Market Position"` verbatim (the prompt embeds
`str.upper()` of each section name, here `"MARKET POSITION"`). -/
theorem c3_counterexample :
    ("competition",
      ({ title := "🏆 Competitive Analysis Report",
         sections := ["Market Position", "Competitor Strengths/Weaknesses",
                      "Competitive Gaps", "Strategic Recommendations"] } :
        ReportTemplate)) ∈ report_templates ∧
    ¬ strContains
        (build_report_prompt "q" [] c3_dict "competition" "January 01, 2024")
        "Market Position" := by
  constructor
  · simp [report_templates]
  · unfold strContains
    set_option maxRecDepth 10000 in decide

/-- C3 (amended): for every category tag of the 6-entry template table and
every question, search-result list, analysis dictionary and date, the prompt
built by `generate_enhanced_report` contains, verbatim as substrings, the
corresponding template's title and the `str.upper()` transform of each of
its 4 section names (the section names appear uppercased, not verbatim). -/
theorem c3_prompt_contains_template (key : String) (tmpl : ReportTemplate)
    (h : (key, tmpl) ∈ report_templates)
    (question : String) (rs : List SearchResult) (a : AnalysisDict)
    (date : String) :
    strContains (build_report_prompt question rs a key date) tmpl.title ∧
    ∀ s ∈ tmpl.sections,
      strContains (build_report_prompt question rs a key date) (py_upper s) := by
  simp only [report_templates, List.mem_cons, List.not_mem_nil, or_false,
    Prod.mk.injEq] at h
  rcases h with ⟨rfl, rfl⟩ | ⟨rfl, rfl⟩ | ⟨rfl, rfl⟩ | ⟨rfl, rfl⟩ |
    ⟨rfl, rfl⟩ | ⟨rfl, rfl⟩ <;>
  · refine ⟨(report_prompt_parts question rs a _ date).1, ?_⟩
    intro s hs
    simp only [List.mem_cons, List.not_mem_nil, or_false] at hs
    rcases hs with rfl | rfl | rfl | rfl
    · exact (report_prompt_parts question rs a _ date).2.1
    · exact (report_prompt_parts question rs a _ date).2.2.1
    · exact (report_prompt_parts question rs a _ date).2.2.2.1
    · exact (report_prompt_parts question rs a _ date).2.2.2.2

/-- C3 (witness): the amended containment instantiated at the
`"competition"` template with concrete inputs. -/
theorem c3_witness :
    strContains
      (build_report_prompt "q" [] c3_dict "competition" "January 01, 2024")
      "🏆 Competitive Analysis Report" ∧
    strContains
      (build_report_prompt "q" [] c3_dict "competition" "January 01, 2024")
      (py_upper "Market Position") := by
  have h := c3_prompt_contains_template "competition"
    { title := "🏆 Competitive Analysis Report",
      sections := ["Market Position", "Competitor Strengths/Weaknesses",
                   "Competitive Gaps", "Strategic Recommendations"] }
    (by simp [report_templates]) "q" [] c3_dict "January 01, 2024"
  exact ⟨h.1, h.2 "Market Position" (by simp)⟩

theorem analyze_dict_search_terms (question : String) (d a : AnalysisDict)
    (h : analyze_strategy_question question (.ok (.dict d)) = .ok a) :
    a.search_terms = d.search_terms := by
  rcases hc : d.category with _ | c
  · simp only [analyze_strategy_question, hc, Except.ok.injEq] at h
    subst h
    rfl
  · by_cases hv : c ∈ valid_categories
    · simp only [analyze_strategy_question, hc, if_pos hv,
        Except.ok.injEq] at h
      subst h
      rfl
    · simp only [analyze_strategy_question, hc, if_neg hv,
        Except.ok.injEq] at h
      subst h
      rfl

theorem finalize_ok (env : AgentEnv) (question category : String)
    (a : AnalysisDict) (results : List SearchResult) (tmpl : ReportTemplate)
    (htmpl : report_templates.lookup category = some tmpl)
    (hsynth : ∀ p, ∃ r, env.synth p = .ok r) :
    ∃ res, finalize_result env question a category results = .ok res ∧
      res.template_used = tmpl.title ∧
      res.search_results = results := by
  obtain ⟨rep, hrep⟩ :=
    hsynth (build_report_prompt question results a category env.today)
  simp only [finalize_result, generate_enhanced_report, hrep, htmpl]
  exact ⟨_, rfl, rfl, rfl⟩

/-- C1 (counterexample): a classifier response that parses as a JSON
dictionary with the off-taxonomy category "strategy" and search terms
["widgets"] makes `analyze_strategy_question` return category "general" but
with the parsed search terms kept, not the one-element list containing the
original question. -/
theorem c1_counterexample :
    analyze_strategy_question "my question" (.ok (.dict c1_dict)) =
      .ok { category := some "general", search_terms := some ["widgets"],
            focus_areas := none, analysis_type := none,
            key_questions := none } ∧
    (some ["widgets"] : Option (List String)) ≠ some ["my question"] := by
  constructor
  · rfl
  · decide

/-- C1 (amended): when the classifier response body is not valid JSON (or
not a dictionary), `analyze_strategy_question` returns the full fallback
with category "general", search_terms = [question] and key_questions =
[question]; when the body parses as a dictionary whose category is merely
absent or outside the fixed 6-value set, only the category field is coerced
to "general" and every other parsed field, including search_terms, is kept
unchanged. -/
theorem c1_classifier_fallback (question : String) :
    analyze_strategy_question question (.ok .failure) =
      .ok { category := some "general",
            search_terms := some [question],
            focus_areas := some ["market analysis", "opportunities",
                                 "strategy"],
            analysis_type := some "General Amazon strategy analysis",
            key_questions := some [question] } ∧
    ∀ d : AnalysisDict, (∀ c, d.category = some c → c ∉ valid_categories) →
      analyze_strategy_question question (.ok (.dict d)) =
        .ok { d with category := some "general" } := by
  constructor
  · rfl
  · intro d h
    rcases hc : d.category with _ | c
    · simp [analyze_strategy_question, hc]
    · simp [analyze_strategy_question, hc, h c hc]

/-- C1 (witness): the amended statement applied to the concrete
off-taxonomy dictionary `c1_dict`. -/
theorem c1_witness :
    analyze_strategy_question "my question" (.ok (.dict c1_dict)) =
      .ok { c1_dict with category := some "general" } :=
  (c1_classifier_fallback "my question").2 c1_dict
    (fun c hc => by
      have hcs : c = "strategy" := by
        simpa [c1_dict] using hc.symm
      subst hcs
      decide)

/-- C7: every dictionary returned by `analyze_strategy_question` carries a
category that is one of the six valid categories (unrecognized or
unparseable classifier output is coerced to "general"). -/
theorem c7_category_invariant (question : String)
    (llm_response : Except PyExc ParseOutcome) (a : AnalysisDict)
    (h : analyze_strategy_question question llm_response = .ok a) :
    ∃ c, a.category = some c ∧ c ∈ valid_categories :=
  analyze_ok_category question llm_response a h

/-- C7 (witness): the invariant at the fallback output for a concrete
unparseable response. -/
theorem c7_witness :
    ∃ c, (fallback_analysis "q").category = some c ∧
      c ∈ valid_categories :=
  c7_category_invariant "q" (.ok .failure) (fallback_analysis "q") rfl

/-- C9: the downloadable report filename is the fixed prefix, then the
question's first 30 characters with every space replaced by an underscore,
then ".md"; instantiated at the concrete question of the spec scenario. -/
theorem c9_download_file_name :
    (∀ question : String, download_file_name question =
      "amazon_strategy_report_" ++
        String.mk ((question.data.take 30).map
          (fun c => if c = ' ' then '_' else c)) ++ ".md") ∧
    download_file_name
      "What is the best ad strategy for skincare brands in 2024 on Amazon marketplaces today?" =
      "amazon_strategy_report_What_is_the_best_ad_strategy_f.md" := by
  refine ⟨fun _ => rfl, ?_⟩
  decide

/-- C6: if the classifier LLM call raises, `research_and_analyze` propagates
the exception: no search call is issued, nothing is aggregated, and the
presentation layer renders the generic error banner, never a report with
sources. -/
theorem c6_classifier_exception (env : AgentEnv) (question depth : String)
    (e : PyExc) (h : env.classifier = .error e) :
    (research_and_analyze env question depth).result = .error e ∧
    (research_and_analyze env question depth).searchCalls = [] ∧
    (research_and_analyze env question depth).aggregated = [] ∧
    render_result (research_and_analyze env question depth).result =
      .errorBanner (error_banner e) ∧
    ∀ body sources,
      render_result (research_and_analyze env question depth).result ≠
        .report body sources := by
  have hrun : research_and_analyze env question depth =
      ⟨.error e, [], []⟩ := by
    simp [research_and_analyze, analyze_strategy_question, h]
  rw [hrun]
  refine ⟨rfl, rfl, rfl, rfl, ?_⟩
  intro body sources hcontra
  simp [render_result] at hcontra

/-- C6 (witness): the propagation at a concrete erroring environment. -/
theorem c6_witness :
    (research_and_analyze c6_env "q" "Deep Dive").result =
      .error (.generic "boom") ∧
    render_result (research_and_analyze c6_env "q" "Deep Dive").result =
      .errorBanner (error_banner (.generic "boom")) := by
  have h := c6_classifier_exception c6_env "q" "Deep Dive"
    (.generic "boom") rfl
  exact ⟨h.1, h.2.2.2.1⟩

/-- C10: a parsed classifier dictionary that lacks the "search_terms" key
makes `research_and_analyze` raise an unhandled KeyError before any search
call; a dictionary whose "search_terms" is the empty list makes the driver
silently use the original question as the only (primary) search term. -/
theorem c10_search_terms_handling (env : AgentEnv) (question depth : String) :
    (∀ d : AnalysisDict, env.classifier = .ok (.dict d) →
      d.search_terms = none →
      (research_and_analyze env question depth).result =
        .error (.keyError "search_terms") ∧
      (research_and_analyze env question depth).searchCalls = []) ∧
    (∀ (d : AnalysisDict) (c : String), env.classifier = .ok (.dict d) →
      d.search_terms = some [] → d.category = some c →
      c ∈ valid_categories →
      (research_and_analyze env question depth).searchCalls =
        [(question, c)]) := by
  constructor
  · intro d hcl hst
    rcases hc : d.category with _ | c
    · have ha : analyze_strategy_question question (.ok (.dict d)) =
          .ok { d with category := some "general" } := by
        simp [analyze_strategy_question, hc]
      constructor <;>
        simp [research_and_analyze, hcl, ha, hst]
    · by_cases hv : c ∈ valid_categories
      · have ha : analyze_strategy_question question (.ok (.dict d)) =
            .ok d := by
          simp [analyze_strategy_question, hc, hv]
        constructor <;>
          simp [research_and_analyze, hcl, ha, hst]
      · have ha : analyze_strategy_question question (.ok (.dict d)) =
            .ok { d with category := some "general" } := by
          simp [analyze_strategy_question, hc, hv]
        constructor <;>
          simp [research_and_analyze, hcl, ha, hst]
  · intro d c hcl hst hc hv
    have ha : analyze_strategy_question question (.ok (.dict d)) =
        .ok d := by
      simp [analyze_strategy_question, hc, hv]
    simp [research_and_analyze, hcl, ha, hst, hc]

/-- C10 (witness): the KeyError at a concrete dictionary missing
"search_terms", and the question-as-primary-term fallback at a concrete
dictionary with an empty "search_terms" list. -/
theorem c10_witness :
    (research_and_analyze c10_env "q" "Deep Dive").result =
      .error (.keyError "search_terms") ∧
    (research_and_analyze c10b_env "q" "Deep Dive").searchCalls =
      [("q", "trends")] := by
  refine ⟨((c10_search_terms_handling c10_env "q" "Deep Dive").1
    c10_dict rfl rfl).1, ?_⟩
  exact (c10_search_terms_handling c10b_env "q" "Deep Dive").2
    c10b_dict "trends" rfl rfl rfl (by decide)

theorem driver_run_shape (env : AgentEnv) (question depth : String)
    (a : AnalysisDict) (ts : List String) (c : String)
    (h1 : analyze_strategy_question question env.classifier = .ok a)
    (h2 : a.search_terms = some ts) (hc : a.category = some c) :
    ∃ L calls, research_and_analyze env question depth =
      ⟨finalize_result env question a c L, calls, L⟩ := by
  simp only [research_and_analyze, h1, h2, hc]
  exact ⟨_, _, rfl⟩

/-- C5: any exception raised by the search-API call is swallowed by
`search_amazon_data` into an empty result list, and the driver still
completes: whenever the classifier produced an analysis carrying a
search_terms list and the synthesis call succeeds, `research_and_analyze`
returns a ResearchResult whatever the outcome of every search call
(including all of them raising, leaving zero gathered results). -/
theorem c5_search_exception_swallowed :
    (∀ (env : AgentEnv) (query stype : String) (e : PyExc),
      env.search (build_search_query query stype) = .error e →
      search_amazon_data env query stype = []) ∧
    (∀ (env : AgentEnv) (question depth : String) (a : AnalysisDict)
        (ts : List String),
      analyze_strategy_question question env.classifier = .ok a →
      a.search_terms = some ts →
      (∀ p, ∃ r, env.synth p = .ok r) →
      ∃ res, (research_and_analyze env question depth).result = .ok res) := by
  constructor
  · intro env query stype e h
    simp [search_amazon_data, h]
  · intro env question depth a ts h1 h2 hsynth
    obtain ⟨c, hc, hcv⟩ := analyze_ok_category question env.classifier a h1
    obtain ⟨tmpl, htmpl⟩ := lookup_of_valid c hcv
    obtain ⟨L, calls, hrw⟩ :=
      driver_run_shape env question depth a ts c h1 h2 hc
    obtain ⟨res, hres, -, -⟩ :=
      finalize_ok env question c a L tmpl htmpl hsynth
    rw [hrw]
    exact ⟨res, hres⟩

/-- C5 (witness): a concrete environment where every search call raises;
the swallowed empty list, and the completed run. -/
theorem c5_witness :
    search_amazon_data c5_env "x" "general" = [] ∧
    ∃ res, (research_and_analyze c5_env "q" "Deep Dive").result =
      .ok res := by
  constructor
  · exact c5_search_exception_swallowed.1 c5_env "x" "general"
      (.generic "search boom") rfl
  · exact c5_search_exception_swallowed.2 c5_env "q" "Deep Dive"
      (fallback_analysis "q") ["q"] rfl rfl (fun p => ⟨"r", rfl⟩)

theorem search_counts_quick :
    ((search_counts.lookup "Quick Analysis").getD 3) = 2 := rfl

theorem search_counts_deep :
    ((search_counts.lookup "Deep Dive").getD 3) = 3 := rfl

theorem search_counts_comp :
    ((search_counts.lookup "Comprehensive Report").getD 3) = 4 := rfl

theorem ite_take2_len (c : Prop) [Decidable c] (x : List SearchResult) :
    (if c then x.take 2 else []).length ≤ 2 := by
  split
  · exact List.length_take_le 2 x
  · simp

theorem agg_len (p x y : List SearchResult) (c2 c3 : Prop)
    [Decidable c2] [Decidable c3] :
    ((p.take 3 ++ (if c2 then x.take 2 else [])) ++
      (if c3 then y.take 2 else [])).length ≤ 7 := by
  have h1 := List.length_take_le 3 p
  have h2 := ite_take2_len c2 x
  have h3 := ite_take2_len c3 y
  simp only [List.length_append]
  omega

/-- C4: given a classification carrying a search_terms list,
`research_and_analyze` issues exactly 1 search call at depth
"Quick Analysis"; exactly 2 at "Deep Dive" when at least 2 search terms
exist, else 1; exactly 3 at "Comprehensive Report" when at least 3 terms
exist, 2 when exactly 2 exist, else 1; and for every depth the three calls
contribute segments of at most 3, 2 and 2 results to the aggregated list. -/
theorem c4_search_call_counts (env : AgentEnv) (question : String)
    (a : AnalysisDict) (ts : List String)
    (h1 : analyze_strategy_question question env.classifier = .ok a)
    (h2 : a.search_terms = some ts) :
    (research_and_analyze env question
      "Quick Analysis").searchCalls.length = 1 ∧
    (2 ≤ ts.length → (research_and_analyze env question
      "Deep Dive").searchCalls.length = 2) ∧
    (ts.length < 2 → (research_and_analyze env question
      "Deep Dive").searchCalls.length = 1) ∧
    (3 ≤ ts.length → (research_and_analyze env question
      "Comprehensive Report").searchCalls.length = 3) ∧
    (ts.length = 2 → (research_and_analyze env question
      "Comprehensive Report").searchCalls.length = 2) ∧
    (ts.length ≤ 1 → (research_and_analyze env question
      "Comprehensive Report").searchCalls.length = 1) ∧
    (∀ depth, ∃ s1 s2 s3,
      (research_and_analyze env question depth).aggregated =
        s1 ++ s2 ++ s3 ∧
      s1.length ≤ 3 ∧ s2.length ≤ 2 ∧ s3.length ≤ 2) := by
  obtain ⟨c, hc, hcv⟩ := analyze_ok_category question env.classifier a h1
  refine ⟨?_, ?_, ?_, ?_, ?_, ?_, ?_⟩
  · simp [research_and_analyze, h1, h2, hc, search_counts_quick]
  · intro hge
    have hlt : 1 < ts.length := hge
    simp [research_and_analyze, h1, h2, hc, search_counts_deep, hlt]
  · intro hge
    have hlt : ¬ (1 < ts.length) := by omega
    simp [research_and_analyze, h1, h2, hc, search_counts_deep, hlt]
  · intro hge
    have hlt1 : 1 < ts.length := by omega
    have hlt2 : 2 < ts.length := by omega
    simp [research_and_analyze, h1, h2, hc, search_counts_comp, hlt1, hlt2]
  · intro hgeq
    have hlt1 : 1 < ts.length := by omega
    have hlt2 : ¬ (2 < ts.length) := by omega
    simp [research_and_analyze, h1, h2, hc, search_counts_comp, hlt1, hlt2]
  · intro hle
    have hlt1 : ¬ (1 < ts.length) := by omega
    have hlt2 : ¬ (2 < ts.length) := by omega
    simp [research_and_analyze, h1, h2, hc, search_counts_comp, hlt1, hlt2]
  · intro depth
    simp only [research_and_analyze, h1, h2, hc]
    refine ⟨_, _, _, rfl, List.length_take_le 3 _, ite_take2_len _ _,
      ite_take2_len _ _⟩

/-- C4 (witness): the call counts at a concrete environment whose
classification has 3 search terms. -/
theorem c4_witness :
    (research_and_analyze c4_env "q"
      "Quick Analysis").searchCalls.length = 1 ∧
    (research_and_analyze c4_env "q" "Deep Dive").searchCalls.length = 2 ∧
    (research_and_analyze c4_env "q"
      "Comprehensive Report").searchCalls.length = 3 := by
  have h := c4_search_call_counts c4_env "q" c4_dict ["x", "y", "z"]
    rfl rfl
  exact ⟨h.1, h.2.1 (by norm_num), h.2.2.2.1 (by norm_num)⟩

/-- C8: if the classifier returns category "pricing" with at least 2 search
terms for the spec's concrete pricing question at depth "Deep Dive" (and
the synthesis call succeeds, so a ResearchResult is returned), exactly two
search calls are made and the result's template_used field equals
"💰 Pricing Strategy Report". -/
theorem c8_pricing_deep_dive (env : AgentEnv) (d : AnalysisDict)
    (ts : List String)
    (hcl : env.classifier = .ok (.dict d))
    (hc : d.category = some "pricing")
    (hst : d.search_terms = some ts)
    (hlen : 2 ≤ ts.length)
    (hsynth : ∀ p, ∃ r, env.synth p = .ok r) :
    (research_and_analyze env
      "What are pricing trends for eco-friendly products on Amazon?"
      "Deep Dive").searchCalls.length = 2 ∧
    ∃ res, (research_and_analyze env
      "What are pricing trends for eco-friendly products on Amazon?"
      "Deep Dive").result = .ok res ∧
      res.template_used = "💰 Pricing Strategy Report" := by
  have ha : analyze_strategy_question
      "What are pricing trends for eco-friendly products on Amazon?"
      env.classifier = .ok d := by
    simp [analyze_strategy_question, hcl, hc, valid_categories]
  constructor
  · have hlt : 1 < ts.length := hlen
    simp [research_and_analyze, ha, hst, hc, search_counts_deep, hlt]
  · obtain ⟨L, calls, hrw⟩ := driver_run_shape env
      "What are pricing trends for eco-friendly products on Amazon?"
      "Deep Dive" d ts "pricing" ha hst hc
    obtain ⟨res, hres, htu, -⟩ := finalize_ok env
      "What are pricing trends for eco-friendly products on Amazon?"
      "pricing" d L
      { title := "💰 Pricing Strategy Report",
        sections := ["Price Analysis", "Competitive Pricing",
                     "Value Positioning", "Pricing Recommendations"] }
      rfl hsynth
    rw [hrw]
    exact ⟨res, hres, htu⟩

/-- C8 (witness): the scenario at a concrete environment whose classifier
returns the pricing classification `c8_dict` with 2 search terms. -/
theorem c8_witness :
    (research_and_analyze c8_env
      "What are pricing trends for eco-friendly products on Amazon?"
      "Deep Dive").searchCalls.length = 2 ∧
    ∃ res, (research_and_analyze c8_env
      "What are pricing trends for eco-friendly products on Amazon?"
      "Deep Dive").result = .ok res ∧
      res.template_used = "💰 Pricing Strategy Report" :=
  c8_pricing_deep_dive c8_env c8_dict
    ["eco-friendly products", "pricing trends"] rfl rfl rfl (by norm_num)
    (fun p => ⟨"r", rfl⟩)

/-- C2 (counterexample): with a classification carrying 3 search terms and
every search call returning 6 organic results, at depth
"Comprehensive Report" the aggregated list handed to the synthesizer holds
7 entries — more than the 4 the claim allows. -/
theorem c2_counterexample :
    (research_and_analyze c2_env "q"
      "Comprehensive Report").aggregated.length = 7 ∧
    ¬ ((research_and_analyze c2_env "q"
      "Comprehensive Report").aggregated.length ≤ 4) := by
  have h : (research_and_analyze c2_env "q"
      "Comprehensive Report").aggregated.length = 7 := by rfl
  exact ⟨h, by omega⟩

/-- C2 (amended): the aggregated list handed to the synthesizer holds at
most 7 entries (the three searches contribute slices of at most 3, 2 and 2),
and the synthesis prompt incorporates at most its first 4 entries — the
prompt built by `generate_enhanced_report` is unchanged when the list is
truncated to its first 4 elements. -/
theorem c2_aggregate_bounds :
    (∀ (env : AgentEnv) (question depth : String),
      (research_and_analyze env question depth).aggregated.length ≤ 7) ∧
    (∀ (question : String) (rs : List SearchResult) (a : AnalysisDict)
        (t date : String),
      build_report_prompt question rs a t date =
        build_report_prompt question (rs.take 4) a t date) := by
  constructor
  · intro env question depth
    rcases hA : analyze_strategy_question question env.classifier with e | a
    · simp [research_and_analyze, hA]
    · rcases hT : a.search_terms with _ | ts
      · simp [research_and_analyze, hA, hT]
      · rcases hC : a.category with _ | c
        · simp [research_and_analyze, hA, hT, hC]
        · simp only [research_and_analyze, hA, hT, hC]
          exact agg_len _ _ _ _ _
  · intro question rs a t date
    simp [build_report_prompt, report_prompt, search_summary,
      List.take_take]
